import Mathlib

set_option autoImplicit false

/-
Verification of the ngx-remote-desktop filesystem mirror and file-transfer
tracking subsystem, as a shallow embedding of the TypeScript sources
(managed-file-upload.ts, managed-filesystem.ts, managed-filesystem.service.ts,
remote-desktop.service.ts) into Lean.

Conventions of the embedding:
- JavaScript strings are Lean String; the sources only manipulate them with
  charAt / substring on ASCII data, where JS UTF-16 indices and Lean character
  indices agree.
- JavaScript numbers holding Guacamole status codes are Int; the JS truthiness
  test `if (statusCode)` is the test that an optional code is present and
  nonzero (undefined and null are modeled as none).
- A mutable object field update is modeled as a function from the old record to
  the new record.
-/

namespace NgxRD

/- ===================== external guacamole library constants ==================
The client library (guacamole-common) is an external dependency of the
repository; only the constants the sources read are embedded here. -/

/-- Guacamole Status object as used by the sources: a numeric status code. -/
structure Status where
  code : Int
deriving DecidableEq

namespace Status

/-- Guacamole Status.Code.SUCCESS is the numeric code 0. -/
def Code.SUCCESS : Int := 0

/-- Guacamole Status.Code.UNSUPPORTED. -/
def Code.UNSUPPORTED : Int := 256

/-- Guacamole Status.Code for an internal error, used as the generic fallback
code by the upload error path. -/
def Code.INTERNAL_ERROR : Int := 512

/-- Guacamole Status.isError: a code is an error when it lies outside the
success range 0 .. 0xFF. -/
def isError (s : Status) : Bool :=
  s.code < 0 || s.code > 255

end Status

/- ===================== managed-file-upload.ts ===================== -/

namespace StreamState

/-- StreamState.IDLE: the stream has not yet been opened. -/
def IDLE : String := "IDLE"

/-- StreamState.OPEN: the stream has been successfully established. -/
def OPEN : String := "OPEN"

/-- StreamState.CLOSED: the stream has terminated successfully. -/
def CLOSED : String := "CLOSED"

/-- StreamState.ERROR: the stream has terminated due to an error. -/
def ERROR : String := "ERROR"

end StreamState

/-- ManagedFileTransferState: the current stream state and the status code of
the current error condition. -/
structure ManagedFileTransferState where
  streamState : String
  statusCode : Int
deriving DecidableEq

/-- The ManagedFileTransferState constructor applied to a null template:
streamState defaults to StreamState.IDLE and statusCode to
Status.Code.SUCCESS. -/
def ManagedFileTransferState.init : ManagedFileTransferState :=
  { streamState := StreamState.IDLE, statusCode := Status.Code.SUCCESS }

/-- ManagedFileTransferState.setStreamState from managed-file-upload.ts: if an
error is already represented the call has no effect; otherwise the stream
state is assigned and, only when the given status code is truthy (present and
nonzero), the status code is assigned as well. -/
def ManagedFileTransferState.setStreamState
    (t : ManagedFileTransferState) (streamState : String)
    (statusCode : Option Int) : ManagedFileTransferState :=
  if t.streamState == StreamState.ERROR then t
  else
    { streamState := streamState
      statusCode :=
        match statusCode with
        | some c => if c != 0 then c else t.statusCode
        | none => t.statusCode }

/-- A sequence of setStreamState calls applied in order. -/
def applySetStreamStateCalls (t : ManagedFileTransferState)
    (calls : List (String × Option Int)) : ManagedFileTransferState :=
  calls.foldl (fun a c => a.setStreamState c.1 c.2) t

/-- ManagedFileUpload: surrogate for one active Guacamole file upload. -/
structure ManagedFileUpload where
  mimetype : String
  filename : String
  progress : Int
  length : Int
  transferState : ManagedFileTransferState
deriving DecidableEq

/-- ManagedFileUpload.isCompleted from managed-file-upload.ts: the transfer
state equals StreamState.CLOSED. -/
def ManagedFileUpload.isCompleted (u : ManagedFileUpload) : Bool :=
  u.transferState.streamState == StreamState.CLOSED

/- ===================== theorems: C3, C8, C9 ===================== -/

/-- C3: the ERROR phase is terminal. For every sequence of setStreamState
calls on a ManagedFileTransferState whose streamState equals
StreamState.ERROR, the whole sequence leaves both streamState and statusCode
unchanged. -/
theorem c3_error_state_terminal (t : ManagedFileTransferState)
    (h : t.streamState = StreamState.ERROR)
    (calls : List (String × Option Int)) :
    applySetStreamStateCalls t calls = t := by
  induction calls with
  | nil => rfl
  | cons c rest ih =>
      have hstep : t.setStreamState c.1 c.2 = t := by
        simp [ManagedFileTransferState.setStreamState, h]
      show applySetStreamStateCalls (t.setStreamState c.1 c.2) rest = t
      rw [hstep]
      exact ih

/-- Witness for C3 at a concrete errored state and a concrete call
sequence. -/
theorem c3_error_state_terminal_witness :
    applySetStreamStateCalls
      { streamState := StreamState.ERROR, statusCode := 519 }
      [(StreamState.OPEN, none), (StreamState.CLOSED, some 0),
       (StreamState.IDLE, some 5)]
      = { streamState := StreamState.ERROR, statusCode := 519 } :=
  c3_error_state_terminal _ rfl _

/-- C8: isCompleted returns true exactly when the stream state equals
StreamState.CLOSED; in particular a transfer whose stream state is
StreamState.ERROR is not reported as completed. -/
theorem c8_isCompleted_iff_closed (u : ManagedFileUpload) :
    (u.isCompleted = true ↔ u.transferState.streamState = StreamState.CLOSED)
    ∧ (u.transferState.streamState = StreamState.ERROR →
        u.isCompleted = false) := by
  constructor
  · simp [ManagedFileUpload.isCompleted]
  · intro h
    simp [ManagedFileUpload.isCompleted, h, StreamState.ERROR,
      StreamState.CLOSED]

/-- Witness for C8 at a concrete failed transfer. -/
theorem c8_isCompleted_iff_closed_witness :
    (ManagedFileUpload.mk "text/plain" "a.txt" 0 3
      { streamState := StreamState.ERROR, statusCode := 519 }).isCompleted
      = false :=
  (c8_isCompleted_iff_closed _).2 rfl

/-- C9: when the current state is not ERROR and the supplied status code is
absent, null, or the SUCCESS code 0, setStreamState updates streamState to the
given value and leaves statusCode untouched. -/
theorem c9_success_code_not_stored (t : ManagedFileTransferState)
    (s : String) (c : Option Int)
    (hne : t.streamState ≠ StreamState.ERROR)
    (hc : c = none ∨ c = some Status.Code.SUCCESS) :
    (t.setStreamState s c).streamState = s ∧
    (t.setStreamState s c).statusCode = t.statusCode := by
  have hb : (t.streamState == StreamState.ERROR) = false := by
    simp [hne]
  rcases hc with rfl | rfl <;>
    simp [ManagedFileTransferState.setStreamState, hb, Status.Code.SUCCESS]

/-- Witness for C9: an OPEN state carrying stored code 7 is moved to CLOSED by
a call passing the SUCCESS code 0, and the stored code stays 7. -/
theorem c9_success_code_not_stored_witness :
    (ManagedFileTransferState.setStreamState
      { streamState := StreamState.OPEN, statusCode := 7 }
      StreamState.CLOSED (some 0)).streamState = StreamState.CLOSED ∧
    (ManagedFileTransferState.setStreamState
      { streamState := StreamState.OPEN, statusCode := 7 }
      StreamState.CLOSED (some 0)).statusCode = 7 :=
  c9_success_code_not_stored _ _ _ (by decide) (Or.inr rfl)

end NgxRD

namespace NgxRD

/- ===================== managed-filesystem.ts ===================== -/

namespace FileType

/-- FileType.NORMAL: a normal, non-directory file. -/
def NORMAL : String := "NORMAL"

/-- FileType.DIRECTORY: a directory. -/
def DIRECTORY : String := "DIRECTORY"

end FileType

/-- Guacamole Object.STREAM_INDEX_MIMETYPE, the reserved mimetype marking a
stream whose contents are a JSON directory listing (external library
constant). -/
def STREAM_INDEX_MIMETYPE : String :=
  "application/vnd.glyptodon.guacamole.stream-index+json"

/-- Guacamole Object.ROOT_STREAM, the stream identifier of the filesystem
root (external library constant). -/
def ROOT_STREAM : String := "/"

/-- File from managed-filesystem.ts: mimetype, stream name, type, display
name, parent and children. In the source `parent` is an object reference to
the parent File; since stream identifiers are unique within one mirror, the
embedding represents that reference by the stream identifier of the parent.
A children map that the source leaves undefined is the empty list. -/
inductive File : Type where
  | mk (mimetype : String) (streamName : String) (ftype : String)
      (fname : Option String) (parent : Option String)
      (files : List (String × File)) : File

/-- The mimetype field of a File. -/
def File.mimetype : File → String
  | .mk m _ _ _ _ _ => m

/-- The streamName field of a File. -/
def File.streamName : File → String
  | .mk _ s _ _ _ _ => s

/-- The type field of a File (named ftype here). -/
def File.ftype : File → String
  | .mk _ _ t _ _ _ => t

/-- The name field of a File (named fname here). -/
def File.fname : File → Option String
  | .mk _ _ _ n _ _ => n

/-- The parent field of a File, as the parent stream identifier. -/
def File.parent : File → Option String
  | .mk _ _ _ _ p _ => p

/-- The files field of a File: the children map as an association list in
insertion order. -/
def File.files : File → List (String × File)
  | .mk _ _ _ _ _ f => f

/-- Assignment to the files field of a File. -/
def File.setFiles : File → List (String × File) → File
  | .mk m s t n p _, fs => .mk m s t n p fs

theorem File.setFiles_files (f : File) (fs : List (String × File)) :
    (f.setFiles fs).files = fs := by
  cases f
  rfl

theorem File.setFiles_streamName (f : File) (fs : List (String × File)) :
    (f.setFiles fs).streamName = f.streamName := by
  cases f
  rfl

theorem File.setFiles_mimetype (f : File) (fs : List (String × File)) :
    (f.setFiles fs).mimetype = f.mimetype := by
  cases f
  rfl

/-- JavaScript object property assignment on the children map: if the key is
present its value is replaced in place, otherwise the pair is appended. -/
def upsert (m : List (String × File)) (k : String) (v : File) :
    List (String × File) :=
  if m.any (fun kv => kv.1 == k) then
    m.map (fun kv => if kv.1 == k then (k, v) else kv)
  else m ++ [(k, v)]

/-- JS s.length: the number of characters of the string (the sources only
handle ASCII stream names, where UTF-16 units and characters agree). -/
def jsCharsLength (s : String) : Nat :=
  s.data.length

/-- JS s.substring(0, n): the first n characters of the string. -/
def jsSubstringTo (s : String) (n : Nat) : String :=
  ⟨s.data.take n⟩

/-- JS s.substring(n): the string with its first n characters removed. -/
def jsSubstringFrom (s : String) (n : Nat) : String :=
  ⟨s.data.drop n⟩

/-- The expected stream-name lead-in of each child of a directory entry: the
streamName of the entry, with a trailing slash appended when the character at
position length - 1 is not a slash (refresh, lines 100-103 of
managed-filesystem.service.ts; charAt on the empty string yields the empty
string, which also differs from a slash). -/
def expectedPfx (streamName : String) : String :=
  match streamName.data.getLast? with
  | some c => if c == '/' then streamName else streamName ++ "/"
  | none => streamName ++ "/"

/-- One child File entry built by the jsonReady handler of refresh for a
returned path p with mimetype m: type DIRECTORY when the mimetype equals
STREAM_INDEX_MIMETYPE and NORMAL otherwise, name the path with the lead-in
removed, parent the refreshed entry. -/
def mkChild (parentStream : String) (pfx : String) (p m : String) : File :=
  .mk m p
    (if m == STREAM_INDEX_MIMETYPE then FileType.DIRECTORY else FileType.NORMAL)
    (some (jsSubstringFrom p (jsCharsLength pfx))) (some parentStream) []

/-- The for-in loop of the jsonReady handler: walk the received mapping from
full stream name to mimetype, skip names that do not start with the expected
lead-in, and add one child entry per remaining name. -/
def listFiles (pfx : String) (parentStream : String)
    (mimetypes : List (String × String)) (acc : List (String × File)) :
    List (String × File) :=
  match mimetypes with
  | [] => acc
  | (p, m) :: rest =>
      if jsSubstringTo p (jsCharsLength pfx) == pfx then
        listFiles pfx parentStream rest
          (upsert acc (jsSubstringFrom p (jsCharsLength pfx))
            (mkChild parentStream pfx p m))
      else
        listFiles pfx parentStream rest acc

/-- The jsonReady handler of refresh: the children map is reset to empty and
then repopulated from the received listing alone. -/
def jsonReady (file : File) (mimetypes : List (String × String)) : File :=
  file.setFiles
    (listFiles (expectedPfx file.streamName) file.streamName mimetypes [])

/-- Observable outcome of one refresh call, against one server response. -/
structure RefreshOutcome where
  promiseRejected : Bool
  streamRequested : Bool
  file : File

/-- ManagedFilesystemService.refresh modeled against a server response that
delivers the given mimetype and JSON listing. The promise is rejected when
the mimetype of the requested file or of the returned stream differs from
STREAM_INDEX_MIMETYPE. Neither reject call returns from the surrounding
function, so the input stream request is issued unconditionally and the
jsonReady handler replaces the children map whenever the response arrives. -/
def refresh (file : File) (responseMimetype : String)
    (listing : List (String × String)) : RefreshOutcome :=
  let precondOk := file.mimetype == STREAM_INDEX_MIMETYPE
  let responseOk := responseMimetype == STREAM_INDEX_MIMETYPE
  { promiseRejected := !(precondOk && responseOk)
    streamRequested := true
    file := jsonReady file listing }

end NgxRD

namespace NgxRD

theorem upsert_mem {m : List (String × File)} {k : String} {v : File}
    {n : String} {c : File} (h : (n, c) ∈ upsert m k v) :
    (n = k ∧ c = v) ∨ (n, c) ∈ m := by
  unfold upsert at h
  split at h
  · rcases List.mem_map.mp h with ⟨kv, hkv, heq⟩
    by_cases h1 : kv.1 == k
    · simp [h1] at heq
      left
      exact ⟨heq.1.symm, heq.2.symm⟩
    · simp [h1] at heq
      right
      exact heq ▸ hkv
  · rcases List.mem_append.mp h with h1 | h1
    · right
      exact h1
    · left
      have := List.mem_singleton.mp h1
      injection this with e1 e2
      exact ⟨e1, e2⟩

theorem upsert_self_mem (m : List (String × File)) (k : String) (v : File) :
    ∃ c, (k, c) ∈ upsert m k v := by
  refine ⟨v, ?_⟩
  unfold upsert
  split
  · rename_i hany
    rcases List.any_eq_true.mp hany with ⟨kv, hkv, hk⟩
    exact List.mem_map.mpr ⟨kv, hkv, by simp [hk]⟩
  · exact List.mem_append.mpr (Or.inr (List.mem_singleton.mpr rfl))

theorem upsert_preserves_key {m : List (String × File)} {n : String}
    (h : ∃ c, (n, c) ∈ m) (k : String) (v : File) :
    ∃ c, (n, c) ∈ upsert m k v := by
  rcases h with ⟨c, hc⟩
  unfold upsert
  split
  · by_cases h1 : n == k
    · refine ⟨v, List.mem_map.mpr ⟨(n, c), hc, ?_⟩⟩
      have : n = k := by simpa using h1
      simp [this]
    · refine ⟨c, List.mem_map.mpr ⟨(n, c), hc, ?_⟩⟩
      simp [h1]
  · exact ⟨c, List.mem_append.mpr (Or.inl hc)⟩

theorem listFiles_sound (pfx parentStream : String) :
    ∀ (mt : List (String × String)) (acc : List (String × File))
      (n : String) (c : File),
    (n, c) ∈ listFiles pfx parentStream mt acc →
    (n, c) ∈ acc ∨
      ∃ p m, (p, m) ∈ mt ∧ (jsSubstringTo p (jsCharsLength pfx) == pfx) = true ∧
        n = jsSubstringFrom p (jsCharsLength pfx) ∧
        c = mkChild parentStream pfx p m := by
  intro mt
  induction mt with
  | nil =>
      intro acc n c h
      left
      exact h
  | cons pm rest ih =>
      intro acc n c h
      obtain ⟨p, m⟩ := pm
      simp only [listFiles] at h
      by_cases hs : (jsSubstringTo p (jsCharsLength pfx) == pfx) = true
      · rw [if_pos hs] at h
        rcases ih _ _ _ h with hacc | ⟨p2, m2, h1, h2, h3, h4⟩
        · rcases upsert_mem hacc with ⟨he1, he2⟩ | hmem
          · right
            exact ⟨p, m, List.mem_cons_self _ _, hs, he1, he2⟩
          · left
            exact hmem
        · right
          exact ⟨p2, m2, List.mem_cons_of_mem _ h1, h2, h3, h4⟩
      · rw [if_neg hs] at h
        rcases ih _ _ _ h with hacc | ⟨p2, m2, h1, h2, h3, h4⟩
        · left
          exact hacc
        · right
          exact ⟨p2, m2, List.mem_cons_of_mem _ h1, h2, h3, h4⟩

theorem listFiles_preserves_key (pfx parentStream : String) :
    ∀ (mt : List (String × String)) (acc : List (String × File)) (n : String),
    (∃ c, (n, c) ∈ acc) →
    ∃ c, (n, c) ∈ listFiles pfx parentStream mt acc := by
  intro mt
  induction mt with
  | nil =>
      intro acc n h
      exact h
  | cons pm rest ih =>
      intro acc n h
      obtain ⟨p, m⟩ := pm
      simp only [listFiles]
      by_cases hs : (jsSubstringTo p (jsCharsLength pfx) == pfx) = true
      · rw [if_pos hs]
        exact ih _ _ (upsert_preserves_key h _ _)
      · rw [if_neg hs]
        exact ih _ _ h

theorem listFiles_complete (pfx parentStream : String) :
    ∀ (mt : List (String × String)) (acc : List (String × File))
      (p m : String),
    (p, m) ∈ mt → (jsSubstringTo p (jsCharsLength pfx) == pfx) = true →
    ∃ c, (jsSubstringFrom p (jsCharsLength pfx), c)
      ∈ listFiles pfx parentStream mt acc := by
  intro mt
  induction mt with
  | nil =>
      intro acc p m h
      exact absurd h (List.not_mem_nil _)
  | cons pm rest ih =>
      intro acc p m h hs
      obtain ⟨p1, m1⟩ := pm
      rcases List.mem_cons.mp h with he | hr
      · injection he with e1 e2
        subst e1
        subst e2
        simp only [listFiles]
        rw [if_pos hs]
        exact listFiles_preserves_key pfx parentStream rest _ _
          (upsert_self_mem _ _ _)
      · simp only [listFiles]
        by_cases hs1 : (jsSubstringTo p1 (jsCharsLength pfx) == pfx) = true
        · rw [if_pos hs1]
          exact ih _ _ _ hr hs
        · rw [if_neg hs1]
          exact ih _ _ _ hr hs

/-- The property C1 asserts about a completed refresh of an entry: the final
children map does not depend on the prior children map, every child comes
from a listing entry whose name starts with the expected lead-in (with type
deduced from the mimetype and parent set to the refreshed entry), and every
prefixed listing entry is represented by a child. -/
def RefreshChildrenSpec (file : File) (responseMimetype : String)
    (listing : List (String × String)) : Prop :=
  (∀ old : List (String × File),
      ((refresh (file.setFiles old) responseMimetype listing).file).files
        = ((refresh file responseMimetype listing).file).files)
  ∧ (∀ n c, (n, c) ∈ ((refresh file responseMimetype listing).file).files →
      ∃ p m, (p, m) ∈ listing
        ∧ (jsSubstringTo p (jsCharsLength (expectedPfx file.streamName))
            == expectedPfx file.streamName) = true
        ∧ n = jsSubstringFrom p (jsCharsLength (expectedPfx file.streamName))
        ∧ c.mimetype = m ∧ c.streamName = p
        ∧ c.ftype = (if m == STREAM_INDEX_MIMETYPE then FileType.DIRECTORY
            else FileType.NORMAL)
        ∧ c.parent = some file.streamName)
  ∧ (∀ p m, (p, m) ∈ listing →
      (jsSubstringTo p (jsCharsLength (expectedPfx file.streamName))
        == expectedPfx file.streamName) = true →
      ∃ c, (jsSubstringFrom p (jsCharsLength (expectedPfx file.streamName)), c)
        ∈ ((refresh file responseMimetype listing).file).files)

/-- C1: after a successful refresh, the children map of the refreshed entry
equals exactly the set derived from the delivered listing: the prior map is
discarded, one child exists per returned path starting with the stream
identifier of the entry followed by a slash, other paths are skipped, the
directory-index mimetype yields type DIRECTORY and any other mimetype type
NORMAL, and every child carries the refreshed entry as its parent. -/
theorem c1_refresh_replaces_children (file : File) (responseMimetype : String)
    (listing : List (String × String))
    (hs : (refresh file responseMimetype listing).promiseRejected = false) :
    RefreshChildrenSpec file responseMimetype listing := by
  refine ⟨?_, ?_, ?_⟩
  · intro old
    simp [refresh, jsonReady, File.setFiles_files, File.setFiles_streamName]
  · intro n c h
    simp only [refresh, jsonReady, File.setFiles_files] at h
    rcases listFiles_sound _ _ _ _ _ _ h with hnil | ⟨p, m, h1, h2, h3, h4⟩
    · exact absurd hnil (List.not_mem_nil _)
    · refine ⟨p, m, h1, h2, h3, ?_, ?_, ?_, ?_⟩ <;>
        simp [h4, mkChild, File.mimetype, File.streamName, File.ftype,
          File.parent]
  · intro p m h1 h2
    simp only [refresh, jsonReady, File.setFiles_files]
    exact listFiles_complete _ _ _ _ _ _ h1 h2

/-- The root entry ManagedFilesystemService.createInstance builds: mimetype
STREAM_INDEX_MIMETYPE, stream name ROOT_STREAM, type DIRECTORY, children not
yet populated. -/
def rootFileEx : File :=
  .mk STREAM_INDEX_MIMETYPE ROOT_STREAM FileType.DIRECTORY none none []

/-- The round-trip listing of the spec: one plain file and one directory
under the root. -/
def listingEx : List (String × String) :=
  [("/a.txt", "text/plain"), ("/sub", STREAM_INDEX_MIMETYPE)]

/-- Witness for C1: the round-trip listing against the root entry is a
successful refresh, and the refreshed children satisfy
RefreshChildrenSpec. -/
theorem c1_refresh_replaces_children_witness :
    (refresh rootFileEx STREAM_INDEX_MIMETYPE listingEx).promiseRejected
      = false
    ∧ RefreshChildrenSpec rootFileEx STREAM_INDEX_MIMETYPE listingEx :=
  ⟨rfl, c1_refresh_replaces_children rootFileEx STREAM_INDEX_MIMETYPE
    listingEx rfl⟩

/-- A directory entry holding one stale child, used to exhibit the missing
return after the reject call in refresh. Its mimetype is text/plain, so the
precondition of refresh is violated. -/
def c2File : File :=
  .mk "text/plain" "/dir" FileType.NORMAL (some "dir") none
    [("stale",
      .mk "text/plain" "/dir/stale" FileType.NORMAL (some "stale")
        (some "/dir") [])]

/-- C2 (failing input): calling refresh on an entry whose mimetype is not
STREAM_INDEX_MIMETYPE rejects the returned promise, yet the input stream is
still requested, and when the server delivers a listing the children map is
still replaced: the stale child is gone and the listed child appears. The
claim that no stream is requested and that the children map is left unchanged
does not hold of the code. -/
theorem c2_wrong_mimetype_still_requests_stream :
    (refresh c2File STREAM_INDEX_MIMETYPE
      [("/dir/x", "text/plain")]).promiseRejected = true
    ∧ (refresh c2File STREAM_INDEX_MIMETYPE
      [("/dir/x", "text/plain")]).streamRequested = true
    ∧ ((refresh c2File STREAM_INDEX_MIMETYPE
      [("/dir/x", "text/plain")]).file).files.map Prod.fst = ["x"]
    ∧ c2File.files.map Prod.fst = ["stale"] := by
  refine ⟨rfl, rfl, ?_, rfl⟩
  rfl

end NgxRD

namespace NgxRD

/- ===================== remote-desktop.service.ts ===================== -/

namespace STATE

/-- RemoteDesktopService.STATE.IDLE. -/
def IDLE : String := "IDLE"

/-- RemoteDesktopService.STATE.CONNECTING. -/
def CONNECTING : String := "CONNECTING"

/-- RemoteDesktopService.STATE.WAITING. -/
def WAITING : String := "WAITING"

/-- RemoteDesktopService.STATE.CONNECTED. -/
def CONNECTED : String := "CONNECTED"

/-- RemoteDesktopService.STATE.DISCONNECTED. -/
def DISCONNECTED : String := "DISCONNECTED"

/-- RemoteDesktopService.STATE.CLIENT_ERROR. -/
def CLIENT_ERROR : String := "CLIENT_ERROR"

/-- RemoteDesktopService.STATE.TUNNEL_ERROR. -/
def TUNNEL_ERROR : String := "TUNNEL_ERROR"

end STATE

/-- handleClientStateChange from remote-desktop.service.ts, as a function from
the last value emitted by the onStateChange BehaviorSubject and the numeric
client state code to the next observable value. Switch cases that do not call
setState (1 connecting, 4 disconnecting, 5 disconnected, and unknown codes)
leave the observable value unchanged. -/
def handleClientStateChange (current : String) (state : Int) : String :=
  match state with
  | 0 => STATE.IDLE
  | 1 => current
  | 2 => STATE.WAITING
  | 3 => STATE.CONNECTED
  | 4 => current
  | 5 => current
  | _ => current

/-- A browser File handed to uploadFile: its name, its declared mimetype (the
type property) and its size in bytes. -/
structure BrowserFile where
  name : String
  ftype : String
  size : Int
deriving DecidableEq

/-- ManagedFilesystem from managed-filesystem.ts, restricted to the fields the
verified operations read; the guacamole filesystem object is an opaque
handle. -/
structure ManagedFilesystem where
  name : String
  object : String
  root : Option File
  currentDirectory : Option File

/-- RemoteDesktopService.createUploadInstance: builds the ManagedFileUpload
for one upload. The `new ManagedFileUpload(null)` template leaves the scalar
fields undefined; since every one of them is assigned immediately below it,
the embedding starts them at neutral values. The transfer state is set to
OPEN synchronously here, before the stream acknowledgement handler is even
installed. -/
def createUploadInstance (file : BrowserFile) : ManagedFileUpload :=
  let m0 : ManagedFileUpload :=
    { mimetype := "", filename := "", progress := 0, length := 0,
      transferState := ManagedFileTransferState.init }
  let m1 : ManagedFileUpload :=
    { m0 with
      filename := file.name
      mimetype := file.ftype
      progress := 0
      length := file.size }
  { m1 with transferState :=
      m1.transferState.setStreamState StreamState.OPEN none }

/-- What the stream onack handler installed by createUploadInstance does with
the first acknowledgement: on an error status the transfer state becomes
ERROR with the reported code and sendEnd is called on the stream; otherwise
the byte upload through the REST service begins. -/
structure AckOutcome where
  upload : ManagedFileUpload
  endSent : Bool
  uploadStarted : Bool
deriving DecidableEq

/-- The body of the onack handler of createUploadInstance applied to the first
acknowledgement status. -/
def handleUploadAck (u : ManagedFileUpload) (status : Status) : AckOutcome :=
  if status.isError then
    { upload := { u with transferState :=
        u.transferState.setStreamState StreamState.ERROR (some status.code) }
      endSent := true
      uploadStarted := false }
  else
    { upload := u, endSent := false, uploadStarted := true }

/-- Observable outcome of one RemoteDesktopService.uploadFile call: the thrown
error if any, the uploads array after the call, whether an output stream was
created, the filesystem object handle the stream was opened on (none for a
generic client file stream), and the stream name used. -/
structure UploadCallResult where
  thrown : Option String
  uploads : List ManagedFileUpload
  streamCreated : Bool
  streamObject : Option String
  streamName : Option String

/-- RemoteDesktopService.uploadFile. The directory argument is dereferenced
by the `directory.type` guard on its first line, so a null or undefined
directory throws a TypeError there, before the
`(directory || fs.currentDirectory)` fallback further down can run; inside
the filesystem branch the directory is known non-null, hence the fallback
always picks the directory argument itself. On the non-throwing path the
upload instance is created and appended to the uploads array. -/
def uploadFile (uploads : List ManagedFileUpload) (file : BrowserFile)
    (fs : Option ManagedFilesystem) (directory : Option File) :
    UploadCallResult :=
  match directory with
  | none =>
      { thrown := some "TypeError: cannot read type of null"
        uploads := uploads, streamCreated := false,
        streamObject := none, streamName := none }
  | some dir =>
      if dir.ftype != FileType.DIRECTORY then
        { thrown := some "upload destination is not a directory"
          uploads := uploads, streamCreated := false,
          streamObject := none, streamName := none }
      else
        let obj : Option String :=
          match fs with
          | some f => some f.object
          | none => none
        let sn : Option String :=
          match fs with
          | some _ => some (dir.streamName ++ "/" ++ file.name)
          | none => none
        let inst := createUploadInstance file
        { thrown := none, uploads := uploads ++ [inst],
          streamCreated := true, streamObject := obj, streamName := sn }

/- ===================== connect parameter handling ===================== -/

/-- A JSON-like parameter value handed to connect: a plain scalar serialized
as a string, or a nested per-protocol settings block. -/
inductive PValue where
  | str (s : String)
  | obj (fields : List (String × String))
deriving DecidableEq

/-- connection_types from remote-desktop.service.ts. -/
def connection_types : List String :=
  ["rdp", "vnc", "ssh", "telnet", "kubernetes"]

/-- The for loop of buildParameters collecting the per-protocol unencrypted
settings block: for each recognized connection type whose key is present in
the parameters, the block becomes the current unencryptedSettings (by the
guac_params type a connection-type key always holds a settings object, which
is always truthy). -/
def findUnencryptedSettings (parameters : List (String × PValue)) :
    List (String × String) :=
  connection_types.foldl
    (fun acc t =>
      match parameters.lookup t with
      | some (PValue.obj fields) => fields
      | _ => acc)
    []

/-- JS object spread of b over a: the keys of a in order, with the value
overridden where b has the key, followed by the keys of b absent from a, in
order. -/
def jsSpread (a b : List (String × PValue)) : List (String × PValue) :=
  (a.map fun kv =>
    match b.lookup kv.1 with
    | some w => (kv.1, w)
    | none => kv)
  ++ b.filter (fun kv => (a.lookup kv.1).isNone)

/-- The merged parameter object `... parameters, ...unencryptedSettings` of
buildParameters. -/
def mergedParameters (parameters : List (String × PValue)) :
    List (String × PValue) :=
  jsSpread parameters
    ((findUnencryptedSettings parameters).map fun kv => (kv.1, PValue.str kv.2))

/-- HttpParams serialization of one value: a string as itself, any other
object stringified to [object Object]. Percent-encoding is the identity on
the plain token characters involved here and is omitted. -/
def serializeValue : PValue → String
  | .str s => s
  | .obj _ => "[object Object]"

/-- The key=value components of `new HttpParams(fromObject).toString()`, in
key insertion order. -/
def serializedPairs (parameters : List (String × PValue)) : List String :=
  (mergedParameters parameters).map fun kv =>
    kv.1 ++ "=" ++ serializeValue kv.2

/-- Query-string concatenation of HttpParams.toString. -/
def joinAmp : List String → String
  | [] => ""
  | [x] => x
  | x :: xs => x ++ "&" ++ joinAmp xs

/-- RemoteDesktopService.buildParameters: merge the matching per-protocol
unencrypted settings block into the top level and serialize the result as a
query string. -/
def buildParameters (parameters : List (String × PValue)) : String :=
  joinAmp (serializedPairs parameters)

end NgxRD

namespace NgxRD

/- ===================== theorems: C4, C5, C6, C7, C10 ===================== -/

/-- C4: uploadFile with a directory whose type is not DIRECTORY throws before
any output stream is created, and the uploads collection is unchanged. -/
theorem c4_upload_to_non_directory_fails (uploads : List ManagedFileUpload)
    (file : BrowserFile) (fs : Option ManagedFilesystem) (dir : File)
    (hd : dir.ftype ≠ FileType.DIRECTORY) :
    (uploadFile uploads file fs (some dir)).thrown
      = some "upload destination is not a directory"
    ∧ (uploadFile uploads file fs (some dir)).uploads = uploads
    ∧ (uploadFile uploads file fs (some dir)).streamCreated = false := by
  have hb : (dir.ftype != FileType.DIRECTORY) = true := by
    simpa using hd
  simp [uploadFile, hb]

/-- Witness for C4: uploading onto a NORMAL file fails and registers
nothing. -/
theorem c4_upload_to_non_directory_fails_witness :
    (uploadFile [] (BrowserFile.mk "a.txt" "text/plain" 3) none
      (some (File.mk "text/plain" "/f.txt" FileType.NORMAL (some "f.txt")
        (some "/") []))).thrown
      = some "upload destination is not a directory"
    ∧ (uploadFile [] (BrowserFile.mk "a.txt" "text/plain" 3) none
      (some (File.mk "text/plain" "/f.txt" FileType.NORMAL (some "f.txt")
        (some "/") []))).uploads = []
    ∧ (uploadFile [] (BrowserFile.mk "a.txt" "text/plain" 3) none
      (some (File.mk "text/plain" "/f.txt" FileType.NORMAL (some "f.txt")
        (some "/") []))).streamCreated = false :=
  c4_upload_to_non_directory_fails _ _ _ _ (by decide)

/-- The concrete browser file used by the C5 counterexample. -/
def browserFileEx : BrowserFile :=
  { name := "a.txt", ftype := "text/plain", size := 3 }

/-- C5 counterexample: immediately after createUploadInstance returns, before
any acknowledgement callback has been processed, the transfer state is
already OPEN. The claim that the state is never OPEN before the first
acknowledgement is therefore false of the code. -/
theorem c5_counterexample_open_before_ack :
    (createUploadInstance browserFileEx).transferState.streamState
      = StreamState.OPEN := rfl

/-- C5 (amended): createUploadInstance marks the transfer OPEN synchronously
at creation, before the acknowledgement handler can have run; if the first
acknowledgement then reports an error, the state moves to ERROR carrying the
reported code and the stream is ended with no byte upload; a non-error
acknowledgement leaves the state OPEN and begins the byte upload. -/
theorem c5_open_at_creation_then_ack (file : BrowserFile) (status : Status) :
    (createUploadInstance file).transferState.streamState = StreamState.OPEN
    ∧ (status.isError = true →
        ((handleUploadAck (createUploadInstance file)
            status).upload.transferState.streamState = StreamState.ERROR
        ∧ (handleUploadAck (createUploadInstance file)
            status).upload.transferState.statusCode = status.code
        ∧ (handleUploadAck (createUploadInstance file) status).endSent = true
        ∧ (handleUploadAck (createUploadInstance file)
            status).uploadStarted = false))
    ∧ (status.isError = false →
        ((handleUploadAck (createUploadInstance file)
            status).upload.transferState.streamState = StreamState.OPEN
        ∧ (handleUploadAck (createUploadInstance file)
            status).uploadStarted = true)) := by
  have hidle : ¬(StreamState.IDLE = StreamState.ERROR) := by decide
  have hopen : ¬(StreamState.OPEN = StreamState.ERROR) := by decide
  refine ⟨rfl, ?_, ?_⟩
  · intro h
    have hc0 : status.code ≠ 0 := by
      simp only [Status.isError, Bool.or_eq_true, decide_eq_true_eq] at h
      omega
    have hcb : (status.code != 0) = true := by
      simpa using hc0
    simp [handleUploadAck, h, createUploadInstance,
      ManagedFileTransferState.setStreamState,
      ManagedFileTransferState.init, hidle, hopen, hcb]
  · intro h
    simp [handleUploadAck, h, createUploadInstance,
      ManagedFileTransferState.setStreamState,
      ManagedFileTransferState.init, hidle, hopen]

/-- Witness for C5 at a concrete file and a concrete error status 519: the
error acknowledgement moves the state to ERROR with code 519 and ends the
stream. -/
theorem c5_open_at_creation_then_ack_witness :
    (handleUploadAck (createUploadInstance browserFileEx)
        (Status.mk 519)).upload.transferState.streamState = StreamState.ERROR
    ∧ (handleUploadAck (createUploadInstance browserFileEx)
        (Status.mk 519)).upload.transferState.statusCode = 519
    ∧ (handleUploadAck (createUploadInstance browserFileEx)
        (Status.mk 519)).endSent = true
    ∧ (handleUploadAck (createUploadInstance browserFileEx)
        (Status.mk 519)).uploadStarted = false :=
  (c5_open_at_creation_then_ack browserFileEx (Status.mk 519)).2.1 rfl

/-- C6: from every prior observable state, client state code 3 moves the
observable connection state to CONNECTED, while client state code 1 (the
transport connecting substate) leaves the observable state unchanged. -/
theorem c6_client_state_codes (current : String) :
    handleClientStateChange current 3 = STATE.CONNECTED
    ∧ handleClientStateChange current 1 = current :=
  ⟨rfl, rfl⟩

/-- C7: for connect parameters holding a top-level token and a nested vnc
block, the serialized parameter string consists of the top-level fields
followed by the fields of the nested block merged at top level; in
particular both token=T and hostname=h appear as components. -/
theorem c7_nested_block_merged_top_level (t h : String) :
    serializedPairs
        [("token", PValue.str t), ("vnc", PValue.obj [("hostname", h)])]
      = ["token=" ++ t, "vnc=[object Object]", "hostname=" ++ h]
    ∧ ("token=" ++ t) ∈ serializedPairs
        [("token", PValue.str t), ("vnc", PValue.obj [("hostname", h)])]
    ∧ ("hostname=" ++ h) ∈ serializedPairs
        [("token", PValue.str t), ("vnc", PValue.obj [("hostname", h)])]
    ∧ buildParameters
        [("token", PValue.str t), ("vnc", PValue.obj [("hostname", h)])]
      = "token=" ++ t ++ "&" ++ ("vnc=[object Object]" ++ "&"
          ++ ("hostname=" ++ h)) := by
  refine ⟨rfl, ?_, ?_, rfl⟩
  · exact List.mem_cons_self _ _
  · show ("hostname=" ++ h)
      ∈ ["token=" ++ t, "vnc=[object Object]", "hostname=" ++ h]
    simp

/-- C10: uploadFile with a null directory throws even when a filesystem with
a non-null current directory is supplied: no stream is created and no
transfer is registered. Moreover the result never depends on the current
directory of the filesystem, so the documented fallback to it is
unreachable. -/
theorem c10_null_directory_always_throws (uploads : List ManagedFileUpload)
    (file : BrowserFile) (fs : ManagedFilesystem)
    (hcd : fs.currentDirectory.isSome = true) :
    (uploadFile uploads file (some fs) none).thrown
      = some "TypeError: cannot read type of null"
    ∧ (uploadFile uploads file (some fs) none).streamCreated = false
    ∧ (uploadFile uploads file (some fs) none).uploads = uploads
    ∧ (∀ (cd2 : Option File) (d : Option File),
        uploadFile uploads file
          (some { fs with currentDirectory := cd2 }) d
        = uploadFile uploads file (some fs) d) := by
  refine ⟨rfl, rfl, rfl, ?_⟩
  intro cd2 d
  cases d with
  | none => rfl
  | some dir => simp [uploadFile]

/-- Witness for C10: a filesystem whose current directory is the root entry
still sees the TypeError on a null directory argument. -/
theorem c10_null_directory_always_throws_witness :
    (uploadFile [] browserFileEx
      (some (ManagedFilesystem.mk "drive" "obj0" (some rootFileEx)
        (some rootFileEx))) none).thrown
      = some "TypeError: cannot read type of null"
    ∧ (uploadFile [] browserFileEx
      (some (ManagedFilesystem.mk "drive" "obj0" (some rootFileEx)
        (some rootFileEx))) none).streamCreated = false
    ∧ (uploadFile [] browserFileEx
      (some (ManagedFilesystem.mk "drive" "obj0" (some rootFileEx)
        (some rootFileEx))) none).uploads = []
    ∧ (∀ (cd2 : Option File) (d : Option File),
        uploadFile [] browserFileEx
          (some { ManagedFilesystem.mk "drive" "obj0" (some rootFileEx)
            (some rootFileEx) with currentDirectory := cd2 }) d
        = uploadFile [] browserFileEx
          (some (ManagedFilesystem.mk "drive" "obj0" (some rootFileEx)
            (some rootFileEx))) d) :=
  c10_null_directory_always_throws _ _ _ rfl

end NgxRD
